import Mathlib

/-!
Verification development for the medinote on-device AI orchestration layer.

Shallow embedding of:
- `src/lib/audioPlan.ts` (policy constants),
- the manual SOAP template pipeline (`composeTemplateSoap`, `toBullets` in the
  Home page module),
- the timeout orchestration (`withTimeout` and the three orchestrated
  operations `runTranscription` / `runProofread` / `runComposeSoap`),
- the native AI task module (`src/lib/ai/localAi.ts`:
  `ensureRecordingConstraints`, `transcribeAudio`, `composeSoap`) and its
  prompt templates (`src/lib/ai/prompts.ts`),
- the session lifecycle hook (`useNanoSession`) as a labelled transition
  system, driven as the repository drives it (the only caller of `beginSetup`
  is the NanoGate enable button, rendered only in the `need-gesture` and
  `error` states),
- the abort-controller discipline (`attachAbortController`, `stop`) as a
  transition system over the controllers ever created by one hook instance,
- the Home page mode selector (`mode`, the `manualOverride` effect and the
  header toggle button).

JavaScript string primitives (trim, single-character split, toLowerCase,
join) are re-implemented structurally over `List Char` so that all concrete
computations reduce in the kernel.
-/

namespace Medinote

/-! ### JavaScript string primitives -/

/-- JavaScript whitespace characters relevant to `String.prototype.trim`
for the inputs in scope. -/
def isWs (c : Char) : Bool := c = ' ' || c = '\t' || c = '\n' || c = '\r'

/-- Character-list core of `String.prototype.trim`. -/
def trimChars (cs : List Char) : List Char :=
  ((cs.dropWhile isWs).reverse.dropWhile isWs).reverse

/-- JavaScript `s.trim()`. -/
def strTrim (s : String) : String := ⟨trimChars s.data⟩

/-- Split a character list at every character satisfying `p`, keeping empty
segments, as JavaScript `split` with a single-character alternation regex
does. -/
def splitChars (p : Char → Bool) : List Char → List (List Char)
  | [] => [[]]
  | c :: cs =>
    match splitChars p cs with
    | [] => if p c then [[], []] else [[c]]
    | r :: rs => if p c then [] :: r :: rs else (c :: r) :: rs

/-- JavaScript `s.split(/…/)` for single-character alternations. -/
def strSplit (s : String) (p : Char → Bool) : List String :=
  (splitChars p s.data).map String.mk

/-- ASCII lower-casing of one character (`String.prototype.toLowerCase` on
the ASCII inputs in scope). -/
def lowerChar (c : Char) : Char :=
  if 'A' ≤ c && c ≤ 'Z' then Char.ofNat (c.toNat + 32) else c

/-- JavaScript `s.toLowerCase()` for ASCII content. -/
def strToLower (s : String) : String := ⟨s.data.map lowerChar⟩

/-- JavaScript `array.join(sep)`. -/
def joinWith (sep : String) : List String → String
  | [] => ""
  | [x] => x
  | x :: xs => x ++ sep ++ joinWith sep xs

/-- Decidable substring check: `containsSubstr s pat` holds when `pat` occurs
contiguously inside `s` (used to state "section contains ..." properties). -/
def containsSubstr (s pat : String) : Bool :=
  (List.range (s.data.length + 1)).any fun i => pat.data.isPrefixOf (s.data.drop i)

/-! ### Policy constants and the SOAP record -/

/-- From `src/lib/audioPlan.ts`: `TARGET_CLIP_SIZE_BYTES = 1_000_000`. -/
def TARGET_CLIP_SIZE_BYTES : Nat := 1000000

/-- From `src/lib/audioPlan.ts`: `MAX_CLIPS_PER_NOTE = 1`. -/
def MAX_CLIPS_PER_NOTE : Nat := 1

/-- The four-section SOAP record, from `src/types/note.ts` (`Soap`). -/
structure Soap where
  subjective : String
  objective : String
  assessment : String
  plan : String
deriving DecidableEq, Repr

/-! ### Manual-fallback SOAP composer (Home page module) -/

/-- From the Home page module: `toBullets(lines, fallback)` — prefix every
line with `"- "` and join with newlines, or the fallback when no lines
exist. -/
def toBullets (lines : List String) (fallback : String) : String :=
  if lines.length > 0 then joinWith "\n" (lines.map (fun line => "- " ++ line))
  else fallback

/-- The sentence splitter inside `composeTemplateSoap`: JavaScript
`trimmed.split(/\n|\.|\?|!/)`. -/
def sentenceSplit (s : String) : List String :=
  strSplit s (fun c => c = '\n' || c = '.' || c = '?' || c = '!')

/-- From the Home page module: `composeTemplateSoap(text)`, the deterministic
manual-fallback SOAP composer. Mirrors the source: trim, the empty-input
early return, split / trim / filter-nonempty / take 6, then the four section
builders. `sentences[0]` / `sentences[1]` are JavaScript truthiness tests;
the list is filtered to non-empty strings, so they coincide with presence. -/
def composeTemplateSoap (text : String) : Soap :=
  let trimmed := strTrim text
  let fallback := "- Pending clinician review."
  if trimmed = "" then
    { subjective := "- No subjective details captured."
      objective := "- No objective data documented."
      assessment := "- Assessment pending clinical review."
      plan := "- Plan pending documentation." }
  else
    let sentences :=
      (((sentenceSplit trimmed).map strTrim).filter (fun e => e ≠ "")).take 6
    let subjective := toBullets (sentences.take 3) "- Subjective details pending."
    let objective := "- Objective measurements pending."
    let assessment :=
      match sentences.get? 0 with
      | some s0 => "- Clinical impression: " ++ s0
      | none => "- Assessment pending."
    let plan :=
      match sentences.get? 1 with
      | some s1 => toBullets ["Plan continues to address " ++ strToLower s1] fallback
      | none => fallback
    { subjective := subjective, objective := objective
      assessment := assessment, plan := plan }

instance {ε α : Type} [DecidableEq ε] [DecidableEq α] : DecidableEq (Except ε α) := fun x y =>
  match x, y with
  | .ok a, .ok b => if h : a = b then .isTrue (by rw [h]) else .isFalse (by simp [h])
  | .error a, .error b => if h : a = b then .isTrue (by rw [h]) else .isFalse (by simp [h])
  | .ok _, .error _ => .isFalse (by simp)
  | .error _, .ok _ => .isFalse (by simp)

/-! ### Prompt templates (`src/lib/ai/prompts.ts`) -/

/-- From `src/lib/ai/prompts.ts`: `SOAP_SYSTEM`, an array of sentences joined
with single spaces. -/
def SOAP_SYSTEM : String :=
  joinWith " "
    [ "You are composing a SOAP note for clinicians."
    , "Work strictly from the provided transcript or cleaned text."
    , "Output concise bullet lists with clinically relevant details."
    , "State diagnoses only when explicitly supported."
    , "Avoid conjecture, hedging, or unrelated education."
    , "Assume the result remains fully local to the device." ]

/-- From `src/lib/ai/prompts.ts`: `SOAP_SECTION_PROMPTS`, one fixed
instruction template per SOAP section (`Record<keyof Soap, string>`,
embedded as a `Soap` of strings), each an array joined with single spaces. -/
def SOAP_SECTION_PROMPTS : Soap :=
  { subjective :=
      joinWith " "
        [ "Create the Subjective section."
        , "Summarize patient-reported symptoms and history only."
        , "Use 3-5 short bullet points prefixed with \"-\""
        , "Keep the clinical voice neutral and precise." ]
    objective :=
      joinWith " "
        [ "Create the Objective section."
        , "List measurable findings, tests, and vitals when present."
        , "Use concise bullet points prefixed with \"-\""
        , "If data is missing, output \"- No objective findings documented.\"" ]
    assessment :=
      joinWith " "
        [ "Create the Assessment section."
        , "State the leading clinical impressions or diagnoses backed by the text."
        , "Avoid speculative language or unsupported conditions."
        , "Use bullet points prefixed with \"-\"." ]
    plan :=
      joinWith " "
        [ "Create the Plan section."
        , "Outline treatments, follow ups, counseling, and orders."
        , "Use action-oriented bullet points prefixed with \"-\"."
        , "If no plan is described, provide \"- Plan pending clinical review.\"" ] }

/-! ### Native AI task module (`src/lib/ai/localAi.ts`) -/

/-- From `src/lib/ai/localAi.ts`: `wrapError(message, error)` produces
an error whose message is `message + ": " + reason`. -/
def wrapError (message reason : String) : String := message ++ ": " ++ reason

/-- From `src/lib/ai/localAi.ts` lines 79-87: `ensureRecordingConstraints`.
Rejects a blob larger than `TARGET_CLIP_SIZE_BYTES` and an unsupported clip
count, before any session or model interaction. -/
def ensureRecordingConstraints (blobSize : Nat) : Except String Unit :=
  if blobSize > TARGET_CLIP_SIZE_BYTES then
    .error "Recording exceeds locally allowed size. Please shorten the clip and try again."
  else if MAX_CLIPS_PER_NOTE ≠ 1 then
    .error "Unsupported recording configuration."
  else
    .ok ()

/-- Behaviour of one host prompt session used by `transcribeAudio`:
whether it exposes a `prompt`/`generate`/`run` method, whether it exposes a
`destroy` method, and how its single prompt settles (`Except.error` for a
rejection; `Except.ok none` for a response with no usable text field;
`Except.ok (some t)` for a response normalizing to text `t`). -/
structure PromptSessionModel where
  hasExecMethod : Bool
  hasDestroy : Bool
  outcome : Except String (Option String)
deriving DecidableEq, Repr

/-- Host environment for one `transcribeAudio` call: whether
`supportsLocalAI()` passes, whether a usable mock is installed (and its
`transcribe` behaviour), and how `createPromptSession` settles on the
native path. -/
structure TranscribeEnv where
  supported : Bool
  mockInstalled : Bool
  mockTranscribe : Option (Except String String)
  createOutcome : Except String PromptSessionModel
deriving DecidableEq, Repr

/-- Observable result of one `transcribeAudio` call: its settled value, plus
whether `createPromptSession` was invoked and whether the created session's
`destroy` method was invoked (the `finally` clause `session?.destroy?.()`). -/
structure TranscribeResult where
  result : Except String String
  creationAttempted : Bool
  destroyInvoked : Bool
deriving DecidableEq, Repr

/-- From `src/lib/ai/localAi.ts` lines 122-155: `transcribeAudio(blob)`.
Order as in the source: `ensureLocalOnly` (throws `Local AI unavailable`
when unsupported), then `ensureRecordingConstraints`, then the mock
dispatch, then the native path: `createPromptSession`, `runSessionPrompt`
inside `try`, response normalization (`text ?? output ?? string`), the
empty-response throw, `wrapError('Transcription failed', …)` in the catch,
and `session?.destroy?.()` in the `finally`. -/
def transcribeAudio (blobSize : Nat) (env : TranscribeEnv) : TranscribeResult :=
  if ¬ env.supported then
    ⟨.error "Local AI unavailable", false, false⟩
  else
    match ensureRecordingConstraints blobSize with
    | .error m => ⟨.error m, false, false⟩
    | .ok () =>
      if env.mockInstalled then
        match env.mockTranscribe with
        | none => ⟨.error "Local AI mock missing transcribe implementation", false, false⟩
        | some r => ⟨r, false, false⟩
      else
        match env.createOutcome with
        | .error m => ⟨.error m, true, false⟩
        | .ok sess =>
          let settled : Except String String :=
            if ¬ sess.hasExecMethod then
              .error (wrapError "Transcription failed" "Prompt session missing supported execution method")
            else
              match sess.outcome with
              | .error m => .error (wrapError "Transcription failed" m)
              | .ok none => .error (wrapError "Transcription failed" "No transcription received from local model")
              | .ok (some t) => .ok (strTrim t)
          ⟨settled, true, sess.hasDestroy⟩

/-- One rewriter request as issued by `runRewriter` (lines 190-213):
`ai.rewriter.local({ text, systemPrompt: SOAP_SYSTEM, instruction,
format: 'text' })`. -/
structure RewriterRequest where
  text : String
  systemPrompt : String
  instruction : String
deriving DecidableEq, Repr

/-- From `src/lib/ai/localAi.ts` lines 225-230: the four section requests
`composeSoap` hands to `Promise.all`, in source order, each with its own
`SOAP_SECTION_PROMPTS` instruction. All four are constructed before any of
them is awaited. -/
def composeSoapRequests (text : String) : List RewriterRequest :=
  [ ⟨text, SOAP_SYSTEM, SOAP_SECTION_PROMPTS.subjective⟩
  , ⟨text, SOAP_SYSTEM, SOAP_SECTION_PROMPTS.objective⟩
  , ⟨text, SOAP_SYSTEM, SOAP_SECTION_PROMPTS.assessment⟩
  , ⟨text, SOAP_SYSTEM, SOAP_SECTION_PROMPTS.plan⟩ ]

/-- From `src/lib/ai/localAi.ts` lines 224-235: how the native `composeSoap`
settles, given how the four `runRewriter` calls settle. When all four
resolve, the `Soap` record is assembled; when any rejects, `Promise.all`
rejects and the catch wraps the reason as `SOAP composition failed: …`
(`Promise.all` surfaces the temporally first rejection — positional order
stands in for it here; the claims depend only on the wrapper prefix). -/
def composeSoapOutcome (subj obj assess plan : Except String String) : Except String Soap :=
  match subj, obj, assess, plan with
  | .ok s, .ok o, .ok a, .ok p => .ok ⟨s, o, a, p⟩
  | .error m, _, _, _ => .error (wrapError "SOAP composition failed" m)
  | _, .error m, _, _ => .error (wrapError "SOAP composition failed" m)
  | _, _, .error m, _ => .error (wrapError "SOAP composition failed" m)
  | _, _, _, .error m => .error (wrapError "SOAP composition failed" m)

/-! ### Timeout orchestration (Home page module) -/

/-- One orchestrated clinical operation: its error label, its timeout budget
(`TRANSCRIPTION_TIMEOUT` / `PROOFREAD_TIMEOUT` / `SOAP_TIMEOUT`, lines
19-21), and whether the call site hands the underlying request an abort
signal. None does: `transcribeAudio(blob)`, `proofread(text)` and
`composeSoap(text)` accept no signal parameter, and `withTimeout` receives
only the already-constructed promise. -/
structure OrchestratedOp where
  label : String
  timeoutMs : Nat
  passesAbortSignal : Bool
deriving DecidableEq, Repr

/-- From the Home page module line 19: `TRANSCRIPTION_TIMEOUT = 20_000`. -/
def TRANSCRIPTION_TIMEOUT : Nat := 20000

/-- From the Home page module line 20: `PROOFREAD_TIMEOUT = 15_000`. -/
def PROOFREAD_TIMEOUT : Nat := 15000

/-- From the Home page module line 21: `SOAP_TIMEOUT = 20_000`. -/
def SOAP_TIMEOUT : Nat := 20000

/-- The `runTranscription` orchestration (line 418). -/
def transcriptionOp : OrchestratedOp := ⟨"Transcription", TRANSCRIPTION_TIMEOUT, false⟩

/-- The `runProofread` orchestration (line 446). -/
def proofreadOp : OrchestratedOp := ⟨"Proofreader", PROOFREAD_TIMEOUT, false⟩

/-- The `runComposeSoap` orchestration (line 473). -/
def soapCompositionOp : OrchestratedOp := ⟨"SOAP composition", SOAP_TIMEOUT, false⟩

/-- The timeout error text produced in `withTimeout` (line 161). -/
def timeoutMessage (label : String) : String := label ++ " timed out. Please retry."

/-- Observable outcome of one `withTimeout(promise, timeoutMs, label)` run:
the settled value and whether the `finally` cleared the timer. -/
structure WithTimeoutRun where
  result : Except String String
  timerCleared : Bool
deriving DecidableEq, Repr

/-- From the Home page module lines 157-172: `withTimeout` races the
underlying promise against a timer that rejects with the timeout message at
`timeoutMs`; the `finally` clears the timer in every case. The underlying
behaviour is given as `some (t, r)` — it settles with `r` at time `t` — or
`none` when it never settles. `withTimeout` performs no cancellation of the
underlying promise: it holds no reference to any abort controller. -/
def withTimeout (underlying : Option (Nat × Except String String)) (op : OrchestratedOp) :
    WithTimeoutRun :=
  match underlying with
  | some (t, r) =>
    if t < op.timeoutMs then ⟨r, true⟩
    else ⟨.error (timeoutMessage op.label), true⟩
  | none => ⟨.error (timeoutMessage op.label), true⟩

/-- Whether the in-flight underlying request is cancelled through an abort
path when its `withTimeout` race times out. `withTimeout` itself aborts
nothing (lines 157-172 contain no abort call), so cancellation could only
occur through a signal passed to the underlying request at the call site —
which is exactly `passesAbortSignal`. -/
def underlyingCancelledOnTimeout (op : OrchestratedOp) : Bool := op.passesAbortSignal

/-! ### Session lifecycle hook (`useNanoSession`) as a transition system -/

/-- The availability tiers reported by the capability probe
(`Availability` in `src/lib/nano/model.ts`). -/
inductive Availability
  | readily
  | afterDownload
  | downloading
  | unavailable
deriving DecidableEq, Repr

/-- The lifecycle states (`NanoSessionState` in `useNanoSession`). -/
inductive NanoState
  | checking
  | needGesture
  | downloading
  | ready
  | unavailable
  | error
deriving DecidableEq, Repr

/-- The hook's observable state: the `state` value, the stored session
handle (`sessionRef` / `session`, set and cleared together, modeled as a
numeric session id), the cached `availability`, the synchronous re-entrancy
guard `settingUpRef`, plus two history counters — how many `createSession`
calls were issued and how many transitions into `ready` occurred. Progress
and message are advisory display values and are not modeled. -/
structure NanoModel where
  state : NanoState
  session : Option Nat
  availability : Option Availability
  settingUp : Bool
  created : Nat
  readyCount : Nat
deriving DecidableEq, Repr

/-- The state right after mount: the availability effect has set `checking`
and the probe is outstanding. -/
def nanoInit : NanoModel :=
  { state := .checking, session := none, availability := none
    settingUp := false, created := 0, readyCount := 0 }

/-- Resolution of the availability probe started by the mount effect
(lines 155-197): cache the tier and map it to the first interactive state
(`readily` / `after-download` / `downloading` → `need-gesture`,
`unavailable` → `unavailable`). The effect runs once — the Home page passes
memoized descriptor arrays — so the continuation fires only while the
cached availability is still unset. -/
def probeFn (s : NanoModel) (a : Availability) : NanoModel :=
  if s.availability = none then
    { s with availability := some a
             state := if a = .unavailable then .unavailable else .needGesture }
  else s

/-- Synchronous body of `beginSetup` (lines 224-262) up to and including the
`createSession` call: the idempotency guard (`settingUpRef` or already
`downloading`/`ready` → return), the cached-unavailable early exit, then
`settingUpRef := true`, `setState('downloading')` and the `createSession`
invocation (counted in `created`). -/
def beginSetupFn (s : NanoModel) : NanoModel :=
  if s.settingUp || s.state = .downloading || s.state = .ready then s
  else if s.availability = some .unavailable then { s with state := .unavailable }
  else { s with state := .downloading, settingUp := true, created := s.created + 1 }

/-- Settlement of the `createSession` promise awaited inside `beginSetup`
(lines 256-276): on success the session is stored (`sessionRef` and
`setSession` together) and the state becomes `ready`; on failure the state
becomes `error` with the session untouched; the `finally` clears
`settingUpRef` either way. Fires only while a creation is outstanding. -/
def createResolvedFn (s : NanoModel) (ok : Bool) : NanoModel :=
  if s.settingUp then
    if ok then
      { s with session := some s.created, state := .ready
               settingUp := false, readyCount := s.readyCount + 1 }
    else
      { s with state := .error, settingUp := false }
  else s

/-- From `useNanoSession` lines 343-359: `destroy()`. A missing session is a
no-op. Otherwise the underlying `activeSession.destroy()` runs inside
`try`／`catch` — `underlyingFails` says whether it rejects; the catch only
logs — and the `finally` clears the session and forces `need-gesture`
regardless. The second component is the call's own outcome as seen by the
caller: always `ok`. -/
def destroyFn (s : NanoModel) (_underlyingFails : Bool) : NanoModel × Except String Unit :=
  match s.session with
  | none => (s, .ok ())
  | some _ =>
    ({ s with session := none, state := .needGesture }, .ok ())

/-- Events driving the hook as the repository drives it. `beginSetupClick`
is a click on the NanoGate enable button — the sole caller of `beginSetup`
in the repository, rendered only while the state is `need-gesture` or
`error` (NanoGate.tsx line 25). -/
inductive NanoEv
  | probeResolved (a : Availability)
  | beginSetupClick
  | createResolved (ok : Bool)
  | destroyCall (underlyingFails : Bool)
deriving DecidableEq, Repr

/-- One step of the lifecycle transition system. -/
def nanoStep (s : NanoModel) : NanoEv → NanoModel
  | .probeResolved a => probeFn s a
  | .beginSetupClick =>
    if s.state = .needGesture || s.state = .error then beginSetupFn s else s
  | .createResolved ok => createResolvedFn s ok
  | .destroyCall f => (destroyFn s f).1

/-- The state reached from mount by a sequence of events. -/
def nanoRun (es : List NanoEv) : NanoModel := es.foldl nanoStep nanoInit

/-- The inductive lifecycle invariant: the session handle is present exactly
in `ready`; the availability cache is unset exactly in `checking`; a
creation is outstanding only while `downloading`. -/
def NanoInv (s : NanoModel) : Prop :=
  (s.session.isSome ↔ s.state = .ready)
  ∧ (s.state = .checking ↔ s.availability = none)
  ∧ (s.settingUp = true → s.state = .downloading)

/-! ### Abort-controller discipline (`attachAbortController`, `stop`) -/

/-- The controllers a hook instance has created, in creation order
(`true` = that controller's signal is aborted), and which of them
`abortRef.current` designates. -/
structure ExecState where
  controllers : List Bool
  current : Option Nat
deriving DecidableEq, Repr

/-- Abort the controller at index `i` (its signal becomes aborted). -/
def abortAt (cs : List Bool) (i : Nat) : List Bool := cs.set i true

/-- First phase of `attachAbortController` (lines 201-203): if the stored
controller exists and is not yet aborted, abort it. -/
def abortCurrent (s : ExecState) : List Bool :=
  match s.current with
  | some i => if s.controllers.get? i = some false then abortAt s.controllers i else s.controllers
  | none => s.controllers

/-- From `useNanoSession` lines 199-222: `attachAbortController(external?)`.
Abort the stored controller when still live, then create a fresh controller
— immediately aborted when the external signal is already aborted
(`external = some true`), otherwise linked so a later external abort aborts
it — store it in `abortRef` and return it. The second component is the new
controller's index. -/
def attachAbortController (s : ExecState) (external : Option Bool) : ExecState × Nat :=
  let cs := abortCurrent s
  let fresh : Bool := external = some true
  (⟨cs ++ [fresh], some cs.length⟩, cs.length)

/-- From `useNanoSession` lines 326-333: `stop()`. With no stored controller
it installs a fresh one and returns; otherwise it aborts the stored one and
installs a fresh one. -/
def stopFn (s : ExecState) : ExecState :=
  match s.current with
  | none => ⟨s.controllers ++ [false], some s.controllers.length⟩
  | some i => ⟨abortAt s.controllers i ++ [false], some (abortAt s.controllers i).length⟩

/-- First controller action of `prompt` / `promptStream` (lines 279-324):
both throw `On-device session not ready.` without touching controllers when
no session is stored, and otherwise call `attachAbortController` before
issuing the request. Returns the new controller's index when a request is
issued. -/
def promptControllerSetup (hasSession : Bool) (s : ExecState) (external : Option Bool) :
    ExecState × Option Nat :=
  if hasSession then
    ((attachAbortController s external).1, some (attachAbortController s external).2)
  else (s, none)

/-- Events over one hook instance's controllers: a `prompt`/`promptStream`
call (with its optional external signal's current aborted flag), a `stop()`
call, and an external signal's abort listener firing for controller `i`. -/
inductive ExecEv
  | attach (external : Option Bool)
  | stop
  | externalAbort (i : Nat)
deriving DecidableEq, Repr

/-- One step of the controller transition system. -/
def execStep (s : ExecState) : ExecEv → ExecState
  | .attach ext => (attachAbortController s ext).1
  | .stop => stopFn s
  | .externalAbort i => ⟨abortAt s.controllers i, s.current⟩

/-- Controller state at mount: none created. -/
def execInit : ExecState := ⟨[], none⟩

/-- The controller state reached from mount by a sequence of events. -/
def execRun (es : List ExecEv) : ExecState := es.foldl execStep execInit

/-- The controller invariant: any live (non-aborted) controller is the one
`abortRef.current` designates — hence there is at most one. -/
def ExecInv (s : ExecState) : Prop :=
  ∀ i, s.controllers.get? i = some false → s.current = some i

/-- Failure modes a `promptStreaming` iteration can surface: the abort
rejection (`error.name === 'AbortError'`) or any other failure. -/
inductive PromptFailure
  | abortError
  | failure (message : String)
deriving DecidableEq, Repr

/-- From `useNanoSession` lines 315-320: the catch block of `promptStream`
rethrows an `AbortError` as-is, and rethrows every other error as-is too —
the error reaches the caller unchanged. -/
def promptStreamRethrow (e : PromptFailure) : PromptFailure :=
  match e with
  | .abortError => .abortError
  | .failure m => .failure m

/-! ### Mode selector (Home page module) -/

/-- The banner availability states (`AiAvailabilityState`). -/
inductive AiStatus
  | unavailable
  | warming
  | ready
deriving DecidableEq, Repr

/-- The toolbar modes (`ToolbarMode`). -/
inductive UiMode
  | ai
  | manual
deriving DecidableEq, Repr

/-- The Home page state feeding the mode computation. -/
structure ModeState where
  aiStatus : AiStatus
  manualOverride : Bool
deriving DecidableEq, Repr

/-- From the Home page module line 282:
`mode = aiStatus === 'ready' && !manualOverride ? 'ai' : 'manual'`. -/
def effectiveMode (s : ModeState) : UiMode :=
  if s.aiStatus = .ready && !s.manualOverride then .ai else .manual

/-- Events: `refreshAiAvailability` (line 288, status becomes `ready` iff
`supportsLocalAI()` returns true) and a click on the header manual-mode
toggle (line 653, disabled unless the status is `ready`, line 632). -/
inductive ModeEv
  | refresh (available : Bool)
  | toggleClick
deriving DecidableEq, Repr

/-- A status update composed with the `manualOverride` effect (lines
298-302): whenever the status is not `ready`, the override flag is forced
on. -/
def applyStatus (s : ModeState) (st : AiStatus) : ModeState :=
  let s2 := { s with aiStatus := st }
  if st ≠ .ready then { s2 with manualOverride := true } else s2

/-- One step of the mode-selector transition system. -/
def modeStep (s : ModeState) : ModeEv → ModeState
  | .refresh avail => applyStatus s (if avail then .ready else .unavailable)
  | .toggleClick =>
    if s.aiStatus = .ready then { s with manualOverride := !s.manualOverride } else s

/-! ### Lifecycle invariant lemmas -/

theorem nanoInit_inv : NanoInv nanoInit := by
  refine ⟨?_, ?_, ?_⟩ <;> simp [nanoInit, NanoInv]

theorem nanoStep_inv (s : NanoModel) (e : NanoEv) (h : NanoInv s) : NanoInv (nanoStep s e) := by
  obtain ⟨h1, h2, h3⟩ := h
  cases e with
  | probeResolved a =>
    by_cases hav : s.availability = none
    · have hst : s.state = .checking := h2.mpr hav
      have hsess : s.session = none := by
        cases hs : s.session with
        | none => rfl
        | some x =>
          have := h1.mp (by simp [hs])
          simp [hst] at this
      have hsu : s.settingUp = false := by
        cases hsu : s.settingUp with
        | false => rfl
        | true =>
          have := h3 hsu
          simp [hst] at this
      refine ⟨?_, ?_, ?_⟩ <;> simp only [nanoStep, probeFn, hav, reduceIte]
      · constructor
        · intro hx; simp [hsess] at hx
        · intro hx; split at hx <;> simp_all
      · constructor
        · intro hx; split at hx <;> simp_all
        · intro hx; simp at hx
      · intro hx; simp [hsu] at hx
    · have : nanoStep s (.probeResolved a) = s := by simp [nanoStep, probeFn, hav]
      rw [this]; exact ⟨h1, h2, h3⟩
  | beginSetupClick =>
    by_cases hg : s.state = .needGesture ∨ s.state = .error
    · have hgate : (s.state = .needGesture || s.state = .error) = true := by
        rcases hg with hg | hg <;> simp [hg]
      have hsu : s.settingUp = false := by
        cases hsu : s.settingUp with
        | false => rfl
        | true =>
          have := h3 hsu
          rcases hg with hg | hg <;> simp [hg] at this
      have hnd : s.state ≠ .downloading := by
        rcases hg with hg | hg <;> simp [hg]
      have hnr : s.state ≠ .ready := by
        rcases hg with hg | hg <;> simp [hg]
      have hsess : s.session = none := by
        cases hs : s.session with
        | none => rfl
        | some x => exact absurd (h1.mp (by simp [hs])) hnr
      have hnc : s.state ≠ .checking := by
        rcases hg with hg | hg <;> simp [hg]
      have hav : s.availability ≠ none := fun hx => hnc (h2.mpr hx)
      simp only [nanoStep, hgate, if_pos, beginSetupFn, hsu, hnd, hnr]
      by_cases hu : s.availability = some .unavailable
      · refine ⟨?_, ?_, ?_⟩ <;> simp [hu, hsu, hnd, hnr, hsess, hav]
      · refine ⟨?_, ?_, ?_⟩ <;> simp [hu, hsu, hnd, hnr, hsess, hav]
    · have hgate : (s.state = .needGesture || s.state = .error) = false := by
        simp only [not_or] at hg
        simp [hg.1, hg.2]
      simp only [nanoStep, hgate, Bool.false_eq_true, if_false]
      exact ⟨h1, h2, h3⟩
  | createResolved ok =>
    by_cases hsu : s.settingUp = true
    · have hst : s.state = .downloading := h3 hsu
      have hsess : s.session = none := by
        cases hs : s.session with
        | none => rfl
        | some x =>
          have := h1.mp (by simp [hs])
          simp [hst] at this
      have hav : s.availability ≠ none := fun hx => by
        have := h2.mpr hx
        simp [hst] at this
      cases ok with
      | true => refine ⟨?_, ?_, ?_⟩ <;> simp [nanoStep, createResolvedFn, hsu, hav]
      | false => refine ⟨?_, ?_, ?_⟩ <;> simp [nanoStep, createResolvedFn, hsu, hsess, hav]
    · have : nanoStep s (.createResolved ok) = s := by simp [nanoStep, createResolvedFn, hsu]
      rw [this]; exact ⟨h1, h2, h3⟩
  | destroyCall f =>
    cases hs : s.session with
    | none =>
      have : nanoStep s (.destroyCall f) = s := by simp [nanoStep, destroyFn, hs]
      rw [this]; exact ⟨h1, h2, h3⟩
    | some x =>
      have hst : s.state = .ready := h1.mp (by simp [hs])
      have hav : s.availability ≠ none := fun hx => by
        have := h2.mpr hx
        simp [hst] at this
      have hsu : s.settingUp = false := by
        cases hsu : s.settingUp with
        | false => rfl
        | true =>
          have := h3 hsu
          simp [hst] at this
      refine ⟨?_, ?_, ?_⟩ <;> simp [nanoStep, destroyFn, hs, hav, hsu]

theorem nanoFold_inv (es : List NanoEv) (s : NanoModel) (h : NanoInv s) :
    NanoInv (es.foldl nanoStep s) := by
  induction es generalizing s with
  | nil => exact h
  | cons e es ih => exact ih _ (nanoStep_inv s e h)

theorem nanoRun_inv (es : List NanoEv) : NanoInv (nanoRun es) :=
  nanoFold_inv es nanoInit nanoInit_inv

theorem ready_exit_clears (s : NanoModel) (e : NanoEv) (h : NanoInv s)
    (hr : s.state = .ready) (hx : (nanoStep s e).state ≠ .ready) :
    (nanoStep s e).session = none := by
  obtain ⟨h1, h2, h3⟩ := h
  have hsu : s.settingUp = false := by
    cases hsu : s.settingUp with
    | false => rfl
    | true =>
      have := h3 hsu
      simp [hr] at this
  have hav : s.availability ≠ none := fun hn => by
    have := h2.mpr hn
    simp [hr] at this
  cases e with
  | probeResolved a =>
    exact absurd (by simp [nanoStep, probeFn, hav, hr]) hx
  | beginSetupClick =>
    exact absurd (by simp [nanoStep, hr]) hx
  | createResolved ok =>
    exact absurd (by simp [nanoStep, createResolvedFn, hsu, hr]) hx
  | destroyCall f =>
    cases hs : s.session with
    | none =>
      have : s.state = .ready → s.session.isSome := h1.mpr
      simp [hs, hr] at this
    | some x => simp [nanoStep, destroyFn, hs]

/-! ### Claim theorems -/

/-- C1: in every reachable state of the session lifecycle manager
(`useNanoSession`), the stored session handle is non-null if and only if
the lifecycle state is `ready`, and every transition that leaves `ready`
clears the session handle together with the state change. -/
theorem C1_session_iff_ready (es : List NanoEv) (e : NanoEv) :
    ((nanoRun es).session.isSome ↔ (nanoRun es).state = .ready) ∧
    ((nanoRun es).state = .ready → (nanoStep (nanoRun es) e).state ≠ .ready →
      (nanoStep (nanoRun es) e).session = none) :=
  ⟨(nanoRun_inv es).1, fun hr hx => ready_exit_clears (nanoRun es) e (nanoRun_inv es) hr hx⟩

/-- Witness for C1: a concrete trace that probes, sets up, reaches `ready`,
then destroys; leaving `ready` indeed clears the session. -/
theorem C1_session_iff_ready_witness :
    ((nanoRun [.probeResolved .readily, .beginSetupClick, .createResolved true]).session.isSome ↔
      (nanoRun [.probeResolved .readily, .beginSetupClick, .createResolved true]).state = .ready) ∧
    (nanoStep (nanoRun [.probeResolved .readily, .beginSetupClick, .createResolved true])
      (.destroyCall true)).session = none :=
  ⟨(C1_session_iff_ready [.probeResolved .readily, .beginSetupClick, .createResolved true]
      (.destroyCall true)).1,
   (C1_session_iff_ready [.probeResolved .readily, .beginSetupClick, .createResolved true]
      (.destroyCall true)).2 (by decide) (by decide)⟩

/-- C3: `beginSetup` is idempotent while setup is in progress or complete —
a call made while the guard is held or while the state is `downloading` or
`ready` is a no-op — so two calls in rapid succession issue at most one
`createSession`, and from a clean `need-gesture` start two calls followed
by the creation settling produce exactly one session and exactly one
transition into `ready`. -/
theorem C3_beginSetup_idempotent (s : NanoModel) :
    (s.settingUp = true ∨ s.state = .downloading ∨ s.state = .ready → beginSetupFn s = s) ∧
    (beginSetupFn (beginSetupFn s)).created ≤ s.created + 1 ∧
    (createResolvedFn (createResolvedFn (beginSetupFn (beginSetupFn s)) true) true).readyCount ≤
      s.readyCount + 1 ∧
    (s.settingUp = false → s.state = .needGesture → s.availability ≠ some .unavailable →
      (createResolvedFn (createResolvedFn (beginSetupFn (beginSetupFn s)) true) true).created =
          s.created + 1 ∧
        (createResolvedFn (createResolvedFn (beginSetupFn (beginSetupFn s)) true) true).readyCount =
          s.readyCount + 1) := by
  refine ⟨?_, ?_, ?_, ?_⟩
  · rintro (h | h | h) <;> simp [beginSetupFn, h]
  · simp only [beginSetupFn]
    split_ifs <;> simp_all
  · simp only [beginSetupFn, createResolvedFn]
    split_ifs <;> simp_all
  · intro hsu hst hav
    simp [beginSetupFn, createResolvedFn, hsu, hst, hav]

/-- Witness for C3 at a clean `need-gesture` state. -/
theorem C3_beginSetup_idempotent_witness :
    beginSetupFn
        { state := .ready, session := some 0, availability := some .readily
          settingUp := false, created := 1, readyCount := 1 } =
      { state := .ready, session := some 0, availability := some .readily
        settingUp := false, created := 1, readyCount := 1 } ∧
    (createResolvedFn (createResolvedFn (beginSetupFn (beginSetupFn
        { state := .needGesture, session := none, availability := some .readily
          settingUp := false, created := 0, readyCount := 0 })) true) true).created = 1 ∧
    (createResolvedFn (createResolvedFn (beginSetupFn (beginSetupFn
        { state := .needGesture, session := none, availability := some .readily
          settingUp := false, created := 0, readyCount := 0 })) true) true).readyCount = 1 :=
  ⟨(C3_beginSetup_idempotent _).1 (Or.inr (Or.inr rfl)),
   ((C3_beginSetup_idempotent _).2.2.2 rfl rfl (by decide)).1,
   ((C3_beginSetup_idempotent _).2.2.2 rfl rfl (by decide)).2⟩

/-- C5: whenever a session exists, `destroy()` leaves the manager in
`need-gesture` with the session cleared, produces the same result whether or
not the underlying destroy rejects, and never propagates a failure to the
caller. -/
theorem C5_destroy_best_effort (s : NanoModel) (f f' : Bool) (h : s.session.isSome) :
    (destroyFn s f).1.state = .needGesture ∧
    (destroyFn s f).1.session = none ∧
    (destroyFn s f).2 = .ok () ∧
    destroyFn s f = destroyFn s f' := by
  cases hs : s.session with
  | none => simp [hs] at h
  | some x => simp [destroyFn, hs]

/-- Witness for C5: destroying a live session with a rejecting underlying
destroy still lands in `need-gesture` with no session and an `ok` outcome. -/
theorem C5_destroy_best_effort_witness :
    (destroyFn
        { state := .ready, session := some 0, availability := some .readily
          settingUp := false, created := 1, readyCount := 1 } true).1.state = .needGesture ∧
    (destroyFn
        { state := .ready, session := some 0, availability := some .readily
          settingUp := false, created := 1, readyCount := 1 } true).1.session = none ∧
    (destroyFn
        { state := .ready, session := some 0, availability := some .readily
          settingUp := false, created := 1, readyCount := 1 } true).2 = .ok () ∧
    destroyFn
        { state := .ready, session := some 0, availability := some .readily
          settingUp := false, created := 1, readyCount := 1 } true =
      destroyFn
        { state := .ready, session := some 0, availability := some .readily
          settingUp := false, created := 1, readyCount := 1 } false :=
  C5_destroy_best_effort _ true false (by decide)

/-! ### Abort-controller invariant lemmas -/

theorem abortCurrent_no_live (s : ExecState) (h : ExecInv s) :
    ∀ j, (abortCurrent s).get? j ≠ some false := by
  intro j
  unfold abortCurrent
  cases hc : s.current with
  | none =>
    intro hj
    have := h j hj
    rw [hc] at this
    exact Option.noConfusion this
  | some i =>
    by_cases hi : s.controllers.get? i = some false
    · simp only [hi, if_pos]
      by_cases hij : i = j
      · subst hij
        have hlt : i < s.controllers.length := by
          rcases List.get?_eq_some.mp hi with ⟨hl, _⟩
          exact hl
        rw [abortAt, List.get?_set_eq_of_lt _ hlt]
        simp
      · rw [abortAt, List.get?_set_ne _ _ hij]
        intro hj
        have := h j hj
        rw [hc] at this
        exact hij (Option.some.inj this)
    · simp only [hi, if_neg, ite_false]
      intro hj
      have := h j hj
      rw [hc] at this
      exact hi (by rw [Option.some.inj this]; exact hj)

theorem abortCurrent_length (s : ExecState) :
    (abortCurrent s).length = s.controllers.length := by
  unfold abortCurrent
  split
  · split <;> simp [abortAt]
  · rfl

theorem append_live_inv (cs : List Bool) (fresh : Bool)
    (hcs : ∀ j, cs.get? j ≠ some false) :
    ExecInv ⟨cs ++ [fresh], some cs.length⟩ := by
  intro k hk
  rcases lt_trichotomy k cs.length with hlt | heq | hgt
  · rw [List.get?_append hlt] at hk
    exact absurd hk (hcs k)
  · rw [heq]
  · have : (cs ++ [fresh]).get? k = none := by
      apply List.get?_eq_none.mpr
      simp only [List.length_append, List.length_singleton]
      omega
    rw [this] at hk
    exact Option.noConfusion hk

theorem execStep_inv (s : ExecState) (e : ExecEv) (h : ExecInv s) : ExecInv (execStep s e) := by
  cases e with
  | attach ext =>
    exact append_live_inv (abortCurrent s) _ (abortCurrent_no_live s h)
  | stop =>
    cases hc : s.current with
    | none =>
      have hcs : ∀ j, s.controllers.get? j ≠ some false := by
        intro j hj
        have := h j hj
        rw [hc] at this
        exact Option.noConfusion this
      simpa [execStep, stopFn, hc] using append_live_inv s.controllers false hcs
    | some i =>
      have hcs : ∀ j, (abortAt s.controllers i).get? j ≠ some false := by
        intro j hj
        by_cases hij : i = j
        · subst hij
          by_cases hlt : i < s.controllers.length
          · rw [abortAt, List.get?_set_eq_of_lt _ hlt] at hj
            simp at hj
          · have : (abortAt s.controllers i).get? i = none := by
              apply List.get?_eq_none.mpr
              simp only [abortAt, List.length_set]
              omega
            rw [this] at hj
            exact Option.noConfusion hj
        · rw [abortAt, List.get?_set_ne _ _ hij] at hj
          have := h j hj
          rw [hc] at this
          exact hij (Option.some.inj this)
      have := append_live_inv (abortAt s.controllers i) false hcs
      simpa [execStep, stopFn, hc] using this
  | externalAbort i =>
    intro k hk
    simp only [execStep] at hk ⊢
    by_cases hik : i = k
    · subst hik
      by_cases hlt : i < s.controllers.length
      · rw [abortAt, List.get?_set_eq_of_lt _ hlt] at hk
        exact absurd (Option.some.inj hk) (by simp)
      · have : (abortAt s.controllers i).get? i = none := by
          apply List.get?_eq_none.mpr
          simp only [abortAt, List.length_set]
          omega
        rw [this] at hk
        exact Option.noConfusion hk
    · rw [abortAt, List.get?_set_ne _ _ hik] at hk
      exact h k hk

theorem execFold_inv (es : List ExecEv) (s : ExecState) (h : ExecInv s) :
    ExecInv (es.foldl execStep s) := by
  induction es generalizing s with
  | nil => exact h
  | cons e es ih => exact ih _ (execStep_inv s e h)

theorem execRun_inv (es : List ExecEv) : ExecInv (execRun es) :=
  execFold_inv es execInit (fun i hi => absurd hi (by simp [execInit]))

/-- C4: at most one live (non-aborted) cancellation controller exists per
hook instance in any reachable controller state; a `prompt`/`promptStream`
call made while the stored controller is live aborts it before installing a
distinct fresh one; and the superseded request's abort rejection reaches the
caller as an `AbortError`, distinguishable from any generic failure. -/
theorem C4_single_live_controller :
    (∀ (es : List ExecEv) (i j : Nat),
        (execRun es).controllers.get? i = some false →
        (execRun es).controllers.get? j = some false → i = j) ∧
    (∀ (s : ExecState) (ext : Option Bool) (i : Nat),
        s.current = some i → s.controllers.get? i = some false →
        (promptControllerSetup true s ext).1.controllers.get? i = some true ∧
        (promptControllerSetup true s ext).2 ≠ some i) ∧
    promptStreamRethrow .abortError = .abortError ∧
    (∀ m, PromptFailure.abortError ≠ PromptFailure.failure m) := by
  refine ⟨?_, ?_, rfl, fun m => by simp⟩
  · intro es i j hi hj
    have h1 := execRun_inv es i hi
    have h2 := execRun_inv es j hj
    rw [h1] at h2
    exact Option.some.inj h2
  · intro s ext i hc hi
    have hlt : i < s.controllers.length := by
      rcases List.get?_eq_some.mp hi with ⟨hl, _⟩
      exact hl
    constructor
    · simp only [promptControllerSetup, if_pos, attachAbortController]
      have hmem : (abortCurrent s).get? i = some true := by
        unfold abortCurrent
        rw [hc]
        simp only [hi, if_pos]
        rw [abortAt, List.get?_set_eq_of_lt _ hlt]
      have hlen : i < (abortCurrent s).length := by
        rw [abortCurrent_length]; exact hlt
      rw [List.get?_append hlen]
      exact hmem
    · simp only [promptControllerSetup, if_pos, attachAbortController]
      intro hcontra
      have hlen : (abortCurrent s).length = i := Option.some.inj hcontra
      rw [abortCurrent_length] at hlen
      omega

/-- Witness for C4: after two consecutive `prompt` attachments only the
newest controller is live, and attaching over a live controller aborts it. -/
theorem C4_single_live_controller_witness :
    (1 : Nat) = 1 ∧
    (promptControllerSetup true ⟨[false], some 0⟩ none).1.controllers.get? 0 = some true ∧
    (promptControllerSetup true ⟨[false], some 0⟩ none).2 ≠ some 0 :=
  ⟨C4_single_live_controller.1 [.attach none, .attach none] 1 1 (by decide) (by decide),
   (C4_single_live_controller.2.1 ⟨[false], some 0⟩ none 0 rfl (by decide)).1,
   (C4_single_live_controller.2.1 ⟨[false], some 0⟩ none 0 rfl (by decide)).2⟩

/-! ### Mode selector lemmas -/

theorem override_persists (s : ModeState) (e : ModeEv) (h : s.manualOverride = true)
    (hne : e ≠ .toggleClick) : (modeStep s e).manualOverride = true := by
  cases e with
  | refresh avail =>
    cases avail <;> simp [modeStep, applyStatus, h]
  | toggleClick => exact absurd rfl hne

/-- C6: once availability transitions away from `ready` the manual-override
flag is set and the effective mode becomes `manual`; from a manual-override
state, the only step whose result is `ai` mode is an explicit user toggle
taken while availability is `ready`; and along any event sequence without a
user toggle the mode stays `manual` — capability returning on its own never
flips the mode back to `ai`. -/
theorem C6_manual_override_policy (s : ModeState) (es : List ModeEv) :
    ((modeStep s (.refresh false)).manualOverride = true ∧
      effectiveMode (modeStep s (.refresh false)) = .manual) ∧
    (∀ e : ModeEv, s.manualOverride = true → effectiveMode (modeStep s e) = .ai →
      e = .toggleClick ∧ s.aiStatus = .ready) ∧
    (s.manualOverride = true → (∀ e ∈ es, e ≠ .toggleClick) →
      effectiveMode (es.foldl modeStep s) = .manual) := by
  refine ⟨⟨?_, ?_⟩, ?_, ?_⟩
  · simp [modeStep, applyStatus]
  · simp [modeStep, applyStatus, effectiveMode]
  · intro e h hai
    cases e with
    | refresh avail =>
      cases avail <;> simp [modeStep, applyStatus, effectiveMode, h] at hai
    | toggleClick =>
      by_cases hr : s.aiStatus = .ready
      · exact ⟨rfl, hr⟩
      · simp [modeStep, effectiveMode, hr, h] at hai
  · intro h hno
    have : (es.foldl modeStep s).manualOverride = true := by
      induction es generalizing s with
      | nil => exact h
      | cons e es ih =>
        exact ih (modeStep s e)
          (override_persists s e h (hno e (List.mem_cons_self e es)))
          (fun e' he' => hno e' (List.mem_cons_of_mem e he'))
    simp [effectiveMode, this]

/-- Witness for C6: with the override set, a capability refresh back to
available leaves the mode `manual`, and only the explicit toggle while
`ready` yields `ai`. -/
theorem C6_manual_override_policy_witness :
    effectiveMode ([ModeEv.refresh true].foldl modeStep ⟨.ready, true⟩) = .manual ∧
    (ModeEv.toggleClick = ModeEv.toggleClick ∧ (⟨.ready, true⟩ : ModeState).aiStatus = .ready) :=
  ⟨(C6_manual_override_policy ⟨.ready, true⟩ [.refresh true]).2.2 rfl (by decide),
   (C6_manual_override_policy ⟨.ready, true⟩ []).2.1 .toggleClick rfl (by decide)⟩

/-! ### Timeout, composition, transcription claims -/

/-- Counterexample for C2: on a transcription run whose underlying request
settles only at 25000 ms — past the 20000 ms budget — the operation does
reject with the distinct timeout message, but the in-flight request is not
cancelled through any abort path: no abort signal reaches it (the claim
asserts the cancellation conjunct, which is false). -/
theorem C2_counterexample :
    (withTimeout (some (25000, Except.ok "transcript")) transcriptionOp).result =
        Except.error "Transcription timed out. Please retry." ∧
    underlyingCancelledOnTimeout transcriptionOp = false ∧
    ¬ (underlyingCancelledOnTimeout transcriptionOp = true) := by
  refine ⟨by decide, rfl, ?_⟩
  intro h
  exact Bool.noConfusion h

/-- C2 amended: each orchestrated operation carries its documented budget
(transcription 20000 ms, proofreading 15000 ms, SOAP composition 20000 ms);
when the underlying request has not settled within the budget the operation
rejects with `<label> timed out. Please retry.` and the race's timer is
cleared — but the in-flight underlying request is not cancelled through any
abort path: it is merely abandoned. -/
theorem C2_timeout_behaviour (op : OrchestratedOp) (u : Option (Nat × Except String String))
    (hop : op = transcriptionOp ∨ op = proofreadOp ∨ op = soapCompositionOp)
    (hlate : ∀ t r, u = some (t, r) → op.timeoutMs ≤ t) :
    transcriptionOp.timeoutMs = 20000 ∧
    proofreadOp.timeoutMs = 15000 ∧
    soapCompositionOp.timeoutMs = 20000 ∧
    (withTimeout u op).result = .error (op.label ++ " timed out. Please retry.") ∧
    (withTimeout u op).timerCleared = true ∧
    underlyingCancelledOnTimeout op = false := by
  refine ⟨rfl, rfl, rfl, ?_, ?_, ?_⟩
  · cases u with
    | none => rfl
    | some p =>
      have := hlate p.1 p.2 (by rw [Prod.mk.eta])
      simp [withTimeout, timeoutMessage, Nat.not_lt.mpr this]
  · cases u with
    | none => rfl
    | some p =>
      have := hlate p.1 p.2 (by rw [Prod.mk.eta])
      simp [withTimeout, Nat.not_lt.mpr this]
  · rcases hop with h | h | h <;> rw [h] <;> rfl

/-- Witness for C2's amended theorem: the proofreader run whose underlying
request never settles times out with the proofreader message. -/
theorem C2_timeout_behaviour_witness :
    transcriptionOp.timeoutMs = 20000 ∧
    proofreadOp.timeoutMs = 15000 ∧
    soapCompositionOp.timeoutMs = 20000 ∧
    (withTimeout none proofreadOp).result = .error ("Proofreader" ++ " timed out. Please retry.") ∧
    (withTimeout none proofreadOp).timerCleared = true ∧
    underlyingCancelledOnTimeout proofreadOp = false :=
  C2_timeout_behaviour proofreadOp none (Or.inr (Or.inl rfl))
    (fun _ _ h => Option.noConfusion h)

/-- C7: the AI-path `composeSoap` issues exactly four section requests
(subjective, objective, assessment, plan), each with its own fixed and
pairwise-distinct instruction template, all constructed before any is
awaited; it resolves to the four-section summary exactly when all four
requests succeed, and when any request fails the whole operation rejects
with a `SOAP composition failed`-wrapped error — no partial summary is ever
returned. -/
theorem C7_composeSoap_all_or_nothing (t : String) (w x y z : Except String String) :
    (composeSoapRequests t).length = 4 ∧
    (composeSoapRequests t).map RewriterRequest.instruction =
      [SOAP_SECTION_PROMPTS.subjective, SOAP_SECTION_PROMPTS.objective,
        SOAP_SECTION_PROMPTS.assessment, SOAP_SECTION_PROMPTS.plan] ∧
    List.Pairwise (fun a b => a ≠ b) ((composeSoapRequests t).map RewriterRequest.instruction) ∧
    (∀ s o a p, w = .ok s → x = .ok o → y = .ok a → z = .ok p →
      composeSoapOutcome w x y z = .ok ⟨s, o, a, p⟩) ∧
    (∀ soap, composeSoapOutcome w x y z = .ok soap →
      w = .ok soap.subjective ∧ x = .ok soap.objective ∧ y = .ok soap.assessment ∧
        z = .ok soap.plan) ∧
    (((∃ m, w = .error m) ∨ (∃ m, x = .error m) ∨ (∃ m, y = .error m) ∨ (∃ m, z = .error m)) →
      ∃ m, composeSoapOutcome w x y z = .error ("SOAP composition failed: " ++ m)) := by
  refine ⟨rfl, rfl, ?_, ?_, ?_, ?_⟩
  · rw [show (composeSoapRequests t).map RewriterRequest.instruction =
        [SOAP_SECTION_PROMPTS.subjective, SOAP_SECTION_PROMPTS.objective,
          SOAP_SECTION_PROMPTS.assessment, SOAP_SECTION_PROMPTS.plan] from rfl]
    decide
  · rintro s o a p rfl rfl rfl rfl
    rfl
  · intro soap h
    cases w <;> cases x <;> cases y <;> cases z <;>
      simp only [composeSoapOutcome, Except.ok.injEq, reduceCtorEq] at h
    subst h
    exact ⟨rfl, rfl, rfl, rfl⟩
  · intro h
    cases w <;> cases x <;> cases y <;> cases z <;>
      first
      | exact ⟨_, rfl⟩
      | (exfalso
         rcases h with ⟨m, hm⟩ | ⟨m, hm⟩ | ⟨m, hm⟩ | ⟨m, hm⟩ <;> exact Except.noConfusion hm)

/-- Witness for C7: four successes assemble the full record; one failing
request makes the whole composition reject with the wrapped error. -/
theorem C7_composeSoap_all_or_nothing_witness :
    composeSoapOutcome (.ok "s") (.ok "o") (.ok "a") (.ok "p") =
        .ok ⟨"s", "o", "a", "p"⟩ ∧
    ∃ m, composeSoapOutcome (.ok "s") (.ok "o") (.ok "a") (.error "boom") =
        .error ("SOAP composition failed: " ++ m) :=
  ⟨(C7_composeSoap_all_or_nothing "note" (.ok "s") (.ok "o") (.ok "a") (.ok "p")).2.2.2.1
      "s" "o" "a" "p" rfl rfl rfl rfl,
   (C7_composeSoap_all_or_nothing "note" (.ok "s") (.ok "o") (.ok "a")
      (.error "boom")).2.2.2.2.2 (Or.inr (Or.inr (Or.inr ⟨"boom", rfl⟩)))⟩

/-- Counterexample for C8: on the input
`"Patient reports mild cough. No fever noted."` the second sentence exists,
so the manual composer derives the plan from it — the plan section is
`- Plan continues to address no fever noted` and contains neither the
missing-second-sentence placeholder (`- Pending clinician review.`) nor the
empty-input plan placeholder (`- Plan pending documentation.`), contrary to
the claim. -/
theorem C8_counterexample :
    (composeTemplateSoap "Patient reports mild cough. No fever noted.").plan =
        "- Plan continues to address no fever noted" ∧
    containsSubstr (composeTemplateSoap "Patient reports mild cough. No fever noted.").plan
        "- Pending clinician review." = false ∧
    containsSubstr (composeTemplateSoap "Patient reports mild cough. No fever noted.").plan
        "- Plan pending documentation." = false := by
  decide

/-- C8 amended: on `"Patient reports mild cough. No fever noted."` the
manual composer produces exactly four non-empty sections, with the
assessment referencing the first sentence; the plan is derived from the
second sentence (`- Plan continues to address no fever noted`) rather than
the placeholder, which appears only when no second sentence exists (as on
the single-sentence input `"Patient reports mild cough."`). -/
theorem C8_manual_fallback_concrete :
    composeTemplateSoap "Patient reports mild cough. No fever noted." =
      { subjective := "- Patient reports mild cough\n- No fever noted"
        objective := "- Objective measurements pending."
        assessment := "- Clinical impression: Patient reports mild cough"
        plan := "- Plan continues to address no fever noted" } ∧
    (composeTemplateSoap "Patient reports mild cough. No fever noted.").subjective ≠ "" ∧
    (composeTemplateSoap "Patient reports mild cough. No fever noted.").objective ≠ "" ∧
    (composeTemplateSoap "Patient reports mild cough. No fever noted.").assessment ≠ "" ∧
    (composeTemplateSoap "Patient reports mild cough. No fever noted.").plan ≠ "" ∧
    containsSubstr (composeTemplateSoap "Patient reports mild cough. No fever noted.").assessment
        "Patient reports mild cough" = true ∧
    (composeTemplateSoap "Patient reports mild cough.").plan = "- Pending clinician review." := by
  decide

/-- C9: a clip of exactly 1,000,000 bytes passes the recording precondition
and proceeds to the model (session creation is reached); a clip of 1,000,001
bytes is rejected with the size-precondition error before any prompt session
is created or destroyed. -/
theorem C9_clip_size_boundary (env : TranscribeEnv)
    (h1 : env.supported = true) (h2 : env.mockInstalled = false) :
    ensureRecordingConstraints 1000000 = .ok () ∧
    (transcribeAudio 1000000 env).creationAttempted = true ∧
    (transcribeAudio 1000001 env).result =
      .error "Recording exceeds locally allowed size. Please shorten the clip and try again." ∧
    (transcribeAudio 1000001 env).creationAttempted = false ∧
    (transcribeAudio 1000001 env).destroyInvoked = false := by
  have hok : ensureRecordingConstraints 1000000 = .ok () := by decide
  have hbad : ensureRecordingConstraints 1000001 =
      .error "Recording exceeds locally allowed size. Please shorten the clip and try again." := by
    decide
  refine ⟨hok, ?_, ?_, ?_, ?_⟩
  · simp only [transcribeAudio, h1, h2, hok]
    cases env.createOutcome <;> simp
  · simp [transcribeAudio, h1, hbad]
  · simp [transcribeAudio, h1, hbad]
  · simp [transcribeAudio, h1, hbad]

/-- Witness for C9 on a concrete supported native environment. -/
theorem C9_clip_size_boundary_witness :
    ensureRecordingConstraints 1000000 = .ok () ∧
    (transcribeAudio 1000000
        ⟨true, false, none, .ok ⟨true, true, .ok (some " hi ")⟩⟩).creationAttempted = true ∧
    (transcribeAudio 1000001 ⟨true, false, none, .ok ⟨true, true, .ok (some " hi ")⟩⟩).result =
      .error "Recording exceeds locally allowed size. Please shorten the clip and try again." ∧
    (transcribeAudio 1000001
        ⟨true, false, none, .ok ⟨true, true, .ok (some " hi ")⟩⟩).creationAttempted = false ∧
    (transcribeAudio 1000001
        ⟨true, false, none, .ok ⟨true, true, .ok (some " hi ")⟩⟩).destroyInvoked = false :=
  C9_clip_size_boundary ⟨true, false, none, .ok ⟨true, true, .ok (some " hi ")⟩⟩ rfl rfl

/-- C10: every native-path `transcribeAudio` call that gets past the
preconditions creates its own prompt session for that single call, and —
whatever the prompt's outcome (success, rejection, unusable response, or a
session without a supported execution method) — invokes that session's
destroy method in the `finally` clause before the call settles. -/
theorem C10_session_destroyed_per_call (size : Nat) (env : TranscribeEnv)
    (sess : PromptSessionModel) (h1 : env.supported = true) (h2 : env.mockInstalled = false)
    (h3 : size ≤ TARGET_CLIP_SIZE_BYTES) (h4 : env.createOutcome = .ok sess)
    (h5 : sess.hasDestroy = true) :
    (transcribeAudio size env).creationAttempted = true ∧
    (transcribeAudio size env).destroyInvoked = true := by
  have hok : ensureRecordingConstraints size = .ok () := by
    unfold ensureRecordingConstraints
    rw [if_neg (by omega)]
    rfl
  constructor <;> simp [transcribeAudio, h1, h2, hok, h4, h5]

/-- Witness for C10: a post-creation failure path (prompt rejects) still
destroys the per-call session before settling. -/
theorem C10_session_destroyed_per_call_witness :
    (transcribeAudio 10
        ⟨true, false, none, .ok ⟨true, true, .error "model rejected"⟩⟩).creationAttempted = true ∧
    (transcribeAudio 10
        ⟨true, false, none, .ok ⟨true, true, .error "model rejected"⟩⟩).destroyInvoked = true :=
  C10_session_destroyed_per_call 10 ⟨true, false, none, .ok ⟨true, true, .error "model rejected"⟩⟩
    ⟨true, true, .error "model rejected"⟩ rfl rfl (by decide) rfl rfl

end Medinote
